import Mathlib

/-!
Verification of the FinanceRadar client-side core (assets/app.js, assets/config.js).

The embedding models, from the source:
  - the JSON values handled by the app (`JsonVal`), JS truthiness and JS string
    coercion for them;
  - the device-local annotation store: `loadStore`, `saveStore`, the inline
    toggle mutations of `wireCardButtons`;
  - the filter pipeline `applyFilters` (with `hostFromUrl` kept as an explicit
    function parameter, since the browser's URL parser is an external
    collaborator);
  - the paginator `clampPage` / `getPaged` (with the configured page size as an
    explicit parameter; assets/config.js sets it to 50);
  - the view-state orchestration: `render` and the user / network events wired
    in the IIFE (`step`), including the pagination-button closures (`navT`) and
    the set of currently displayed cards (`visible`);
  - the fetch boundary `fetchCandidates` / `fetchAndRender`.

JS strings are modelled as Lean `String`; `toLowerCase`, `trim` and
`String.prototype.includes` are modelled by the structurally recursive
`toLowerStr`, `trimStr` and `substrB` below.
-/

namespace FinanceRadar

/-- Constants from assets/config.js (`window.IFR_CONFIG`). -/
def PAGE_SIZE : Nat := 50

/-- Constant from assets/config.js: maximum numbered pagination buttons. -/
def MAX_VISIBLE_PAGES : Nat := 10

/-- JSON values, as produced by `JSON.parse` (an `obj` field list has pairwise
distinct keys when it comes from the parser, but the model does not need to
assume this). -/
inductive JsonVal where
  | null : JsonVal
  | bool (b : Bool) : JsonVal
  | num (n : Int) : JsonVal
  | str (s : String) : JsonVal
  | arr (xs : List JsonVal) : JsonVal
  | obj (fs : List (String × JsonVal)) : JsonVal

/-- Property access `v[k]` on a JSON value: a binding for objects, `undefined`
(`none`) for non-objects.  (Access on `null` throws in JS; the one place the
source can perform it, inside `loadStore`, is modelled explicitly there.) -/
def getField (v : JsonVal) (k : String) : Option JsonVal :=
  match v with
  | .obj fs => List.lookup k fs
  | _ => none

/-- JS truthiness of a JSON value. -/
def jsTruthy : JsonVal → Bool
  | .null => false
  | .bool b => b
  | .num n => decide (n ≠ 0)
  | .str s => decide (s ≠ "")
  | .arr _ => true
  | .obj _ => true

/-- Comma-join used by JS array-to-string coercion. -/
def joinComma : List String → String
  | [] => ""
  | [x] => x
  | x :: xs => x ++ "," ++ joinComma xs

mutual

/-- JS string coercion of a JSON value, as in a template literal. -/
def jsToString : JsonVal → String
  | .null => "null"
  | .bool true => "true"
  | .bool false => "false"
  | .num n => toString n
  | .str s => s
  | .arr xs => joinComma (jsArrElems xs)
  | .obj _ => "[object Object]"

/-- Element strings of `Array.prototype.join`, where `null` becomes empty. -/
def jsArrElems : List JsonVal → List String
  | [] => []
  | .null :: t => "" :: jsArrElems t
  | x :: t => jsToString x :: jsArrElems t

end

/-- Value of the persisted localStorage slot when `loadStore` reads it:
missing, present but not JSON (so `JSON.parse` throws), or parsed JSON. -/
inductive LoadInput where
  | missing : LoadInput
  | notJson : LoadInput
  | parsed (v : JsonVal) : LoadInput

/-- Record shape returned by `loadStore`: whatever JSON values survive its
structural check sit in the `read` and `star` fields. -/
structure StoreVal where
  read : JsonVal
  star : JsonVal

/-- Empty annotation record `{read:{}, star:{}}`. -/
def emptyStoreVal : StoreVal := ⟨.obj [], .obj []⟩

/-- Check `x && typeof x === "object"` on a field access result: satisfied
exactly by (non-null) objects and arrays. -/
def isObjTruthy : Option JsonVal → Bool
  | some (.obj _) => true
  | some (.arr _) => true
  | _ => false

/-- Value kept for a store field: kept verbatim when `x && typeof x ===
"object"` holds, replaced with `{}` otherwise. -/
def fieldOrEmpty (o : Option JsonVal) : JsonVal :=
  match o with
  | some (.obj fs) => .obj fs
  | some (.arr xs) => .arr xs
  | _ => .obj []

/-- `loadStore` from app.js lines 37-49: returns `{read:{}, star:{}}` when the
slot is missing or `JSON.parse` throws; property access on a parsed `null`
throws and is caught, giving the same result; otherwise each of the two fields
is kept iff it passes `isObjTruthy`. -/
def loadStore : LoadInput → StoreVal
  | .missing => emptyStoreVal
  | .notJson => emptyStoreVal
  | .parsed .null => emptyStoreVal
  | .parsed v => ⟨fieldOrEmpty (getField v "read"), fieldOrEmpty (getField v "star")⟩

/-- In-memory annotation store manipulated by the card buttons: two mappings
from item id to boolean flag (this is the shape the store has whenever the
persisted record was produced by `saveStore` itself). -/
structure Store where
  read : List (String × Bool)
  star : List (String × Bool)
deriving DecidableEq

/-- Truthiness of `map[id]` on a flag mapping: the stored boolean, with a
missing entry (`undefined`) counting as false. -/
def flagOf (l : List (String × Bool)) (id : String) : Bool :=
  (List.lookup id l).getD false

/-- Truthiness of `store.read[id]`. -/
def readFlag (s : Store) (id : String) : Bool := flagOf s.read id

/-- Truthiness of `store.star[id]`. -/
def starFlag (s : Store) (id : String) : Bool := flagOf s.star id

/-- JS property assignment `m[k] = v` on a flag mapping: updates the binding in
place when the key exists, appends a new binding otherwise. -/
def jsSet (l : List (String × Bool)) (k : String) (v : Bool) : List (String × Bool) :=
  if l.any (fun p => p.1 == k) then
    l.map (fun p => cond (p.1 == k) (k, v) p)
  else
    l ++ [(k, v)]

/-- Handler line `store.read[id] = !store.read[id]` of `wireCardButtons`. -/
def toggleRead (id : String) (s : Store) : Store :=
  { s with read := jsSet s.read id (! readFlag s id) }

/-- Handler line `store.star[id] = !store.star[id]` of `wireCardButtons`. -/
def toggleStar (id : String) (s : Store) : Store :=
  { s with star := jsSet s.star id (! starFlag s id) }

/-- Headline handler line `store.read[id] = true` of `wireCardButtons`. -/
def setRead (id : String) (s : Store) : Store :=
  { s with read := jsSet s.read id true }

/-- `saveStore` from app.js line 51: the JSON value written to the persistent
slot (`JSON.stringify(store)`). -/
def saveStore (s : Store) : JsonVal :=
  .obj [("read", .obj (s.read.map (fun p => (p.1, .bool p.2)))),
        ("star", .obj (s.star.map (fun p => (p.1, .bool p.2))))]

/-- Truthiness of `record[id]` on a reloaded JSON flag mapping. -/
def jsonFlag (v : JsonVal) (id : String) : Bool :=
  jsTruthy ((getField v id).getD .null)

/-- Model of `String.prototype.toLowerCase`. -/
def toLowerStr (s : String) : String := String.mk (s.data.map Char.toLower)

/-- Model of `String.prototype.trim`. -/
def trimStr (s : String) : String :=
  String.mk (((s.data.dropWhile Char.isWhitespace).reverse.dropWhile Char.isWhitespace).reverse)

/-- Does the first character list start the second one? -/
def startsWithL : List Char → List Char → Bool
  | [], _ => true
  | _ :: _, [] => false
  | a :: as, b :: bs => a == b && startsWithL as bs

/-- Contiguous-sublist test on character lists. -/
def infixOfL : List Char → List Char → Bool
  | n, [] => startsWithL n []
  | n, c :: t => startsWithL n (c :: t) || infixOfL n t

/-- Model of `hay.includes(needle)` on JS strings. -/
def substrB (needle hay : String) : Bool := infixOfL needle.data hay.data

/-- Model of `Array.prototype.join(" ")` on an array of strings. -/
def joinSpace : List String → String
  | [] => ""
  | [x] => x
  | x :: xs => x ++ " " ++ joinSpace xs

/-- Item as consumed by the filter/render pipeline.  Fields hold the values the
source reads defensively: `id` is `String(it.id ?? "")`, `title` is
`it.title || ""`, `feedTitle` is `it.feed?.title || ""`, `url` is `it.url`
(fed to `hostFromUrl`), and `tags` is `none` exactly when `Array.isArray(it.tags)`
fails. -/
structure Item where
  id : String
  title : String
  feedTitle : String
  url : String
  tags : Option (List String)
deriving DecidableEq

/-- Filter criteria held in the view state (`state.q/source/topic/hideRead/starOnly`). -/
structure Criteria where
  q : String
  source : String
  topic : String
  hideRead : Bool
  starOnly : Bool
deriving DecidableEq

/-- Search haystack of `applyFilters`: the four components joined by `" "`,
lowercased (`[title, feedTitle, hostFromUrl(url), tags.join(" ")].join(" ").toLowerCase()`). -/
def hayOf (hostFromUrl : String → String) (it : Item) : String :=
  toLowerStr (joinSpace [it.title, it.feedTitle, hostFromUrl it.url, joinSpace (it.tags.getD [])])

/-- Per-item predicate of `applyFilters` (app.js lines 119-140), with the five
checks in source order. -/
def itemPasses (hostFromUrl : String → String) (c : Criteria) (s : Store) (it : Item) : Bool :=
  if (!(c.source == "")) && (!(it.feedTitle == c.source)) then false
  else if (!(c.topic == "")) && (!(it.tags.isSome && (it.tags.getD []).contains c.topic)) then false
  else if c.hideRead && readFlag s it.id then false
  else if c.starOnly && (! starFlag s it.id) then false
  else if toLowerStr (trimStr c.q) == "" then true
  else substrB (toLowerStr (trimStr c.q)) (hayOf hostFromUrl it)

/-- `applyFilters` from app.js lines 114-141. -/
def applyFilters (hostFromUrl : String → String) (c : Criteria) (s : Store)
    (items : List Item) : List Item :=
  items.filter (itemPasses hostFromUrl c s)

/-- Conjunction of the five predicates of spec section 4.2, with the amendment
that predicate 5 searches the space-separated concatenation of title,
feedTitle, hostname and space-joined tags (all lowercased). -/
def specPasses (hostFromUrl : String → String) (c : Criteria) (s : Store) (it : Item) : Bool :=
  ((c.source == "") || (it.feedTitle == c.source)) &&
  (((c.topic == "") || ((it.tags.getD []).contains c.topic)) &&
  ((!(c.hideRead && readFlag s it.id)) &&
  (((!c.starOnly) || starFlag s it.id) &&
  ((toLowerStr (trimStr c.q) == "") || substrB (toLowerStr (trimStr c.q)) (hayOf hostFromUrl it)))))

/-- Conjunction of the five predicates as the claim states them: predicate 5
searches the plain (separator-free) concatenation of title, feedTitle,
hostname and space-joined tags, all lowercased. -/
def specPassesConcat (hostFromUrl : String → String) (c : Criteria) (s : Store) (it : Item) : Bool :=
  ((c.source == "") || (it.feedTitle == c.source)) &&
  (((c.topic == "") || ((it.tags.getD []).contains c.topic)) &&
  ((!(c.hideRead && readFlag s it.id)) &&
  (((!c.starOnly) || starFlag s it.id) &&
  ((toLowerStr (trimStr c.q) == "") ||
     substrB (toLowerStr (trimStr c.q))
       (toLowerStr (it.title ++ it.feedTitle ++ hostFromUrl it.url ++ joinSpace (it.tags.getD [])))))))

/-- `clampPage` from app.js lines 143-146. -/
def clampPage (p totalPages : Int) : Int :=
  if totalPages ≤ 0 then 1 else max 1 (min totalPages p)

/-- Result of `getPaged`: the slice to display, the page count, and the clamped
page number written back to `state.page`. -/
structure Paged (α : Type) where
  pageItems : List α
  totalPages : Nat
  currentPage : Int
deriving DecidableEq

/-- `getPaged` from app.js lines 148-153, with the closed-over `PAGE_SIZE`
taken as the explicit parameter `pageSize` (config sets it to 50).
`Math.ceil(items.length / pageSize)` is `(length + pageSize - 1) / pageSize`
in integer arithmetic, and `items.slice(start, start + pageSize)` is
drop-then-take. -/
def getPaged (pageSize : Nat) (reqPage : Int) (items : List α) : Paged α :=
  let totalPages : Nat := max 1 ((items.length + pageSize - 1) / pageSize)
  let cur : Int := clampPage reqPage (totalPages : Int)
  let start : Nat := (cur - 1).toNat * pageSize
  ⟨(items.drop start).take pageSize, totalPages, cur⟩

/-- Fetched dataset as read by `render`: `items` is `none` exactly when
`Array.isArray(state.data.items)` fails. -/
structure DataVal where
  items : Option (List Item)
deriving DecidableEq

/-- Mutable view state (`state` in app.js), restricted to the fields the core
logic reads: filter criteria, dataset (nullable), and 1-based page number. -/
structure AppState where
  crit : Criteria
  data : Option DataVal
  page : Int
deriving DecidableEq

/-- Whole-system state: view state, in-memory store, the persisted localStorage
slot (`none` = never written), the page count captured by the pagination-button
closures of the last `renderPagination` call (`navT`), and the ids of the cards
currently in the DOM (`visible`). -/
structure Sys where
  app : AppState
  store : Store
  persisted : Option JsonVal
  navT : Nat
  visible : List String

/-- Filtered list the current render would compute (`applyFilters(allItems)`
with `allItems = Array.isArray(state.data.items) ? state.data.items : []`);
empty when there is no dataset. -/
def currentFiltered (hostFromUrl : String → String) (a : AppState) (s : Store) : List Item :=
  match a.data with
  | none => []
  | some d => applyFilters hostFromUrl a.crit s (d.items.getD [])

/-- `render` from app.js lines 182-223, restricted to its state effects.  With
no dataset it only replaces the content text (cards disappear, pagination
buttons are left as they were).  With an empty filtered result it calls
`renderPagination(1)` and returns without touching `state.page`.  Otherwise
`getPaged` clamps `state.page` and the page slice is displayed. -/
def render (hostFromUrl : String → String) (sys : Sys) : Sys :=
  match sys.app.data with
  | none => { sys with visible := [] }
  | some d =>
    let filtered := applyFilters hostFromUrl sys.app.crit sys.store (d.items.getD [])
    if filtered.length = 0 then
      { sys with navT := 1, visible := [] }
    else
      let pg := getPaged PAGE_SIZE sys.app.page filtered
      { sys with
          app := { sys.app with page := pg.currentPage },
          navT := pg.totalPages,
          visible := pg.pageItems.map (fun it => it.id) }

/-- Page number `render` leaves in the state, as a standalone formula. -/
def renderedPage (hostFromUrl : String → String) (c : Criteria) (data : Option DataVal)
    (s : Store) (p : Int) : Int :=
  match data with
  | none => p
  | some d =>
    let n := (applyFilters hostFromUrl c s (d.items.getD [])).length
    if n = 0 then p else clampPage p ((max 1 ((n + PAGE_SIZE - 1) / PAGE_SIZE) : Nat) : Int)

/-- User and network events handled by the IIFE.  `navNum k` is a click on the
numbered pagination button `k`; `headline id` is a click on a displayed card's
headline link; `toggleRead`/`toggleStar` are clicks on a displayed card's
action buttons. -/
inductive Ev where
  | query (s : String) : Ev
  | source (s : String) : Ev
  | topic (s : String) : Ev
  | hideRead (b : Bool) : Ev
  | starOnly (b : Bool) : Ev
  | escape : Ev
  | navPrev : Ev
  | navNext : Ev
  | navNum (k : Nat) : Ev
  | toggleRead (id : String) : Ev
  | toggleStar (id : String) : Ev
  | headline (id : String) : Ev
  | fetchOk (d : DataVal) : Ev
  | fetchFail : Ev

/-- Event dispatch, from app.js lines 155-179 (pagination buttons), 261-287
(`wireCardButtons`), 307-327 (`fetchAndRender` state effects) and 330-347 (the
input handlers).  Filter-criterion handlers assign the field, set `state.page = 1`
and re-render; pagination buttons move the page relative to the closure's
`totalPages`; card buttons flip the flag, persist and re-render; headline
clicks set the read flag and persist without re-rendering; a resolved fetch
stores the dataset and resets the page, a failed fetch clears the dataset
without re-rendering (the error text replaces the content). -/
def step (hostFromUrl : String → String) (sys : Sys) : Ev → Sys
  | .query s =>
    render hostFromUrl { sys with app := { sys.app with crit := { sys.app.crit with q := s }, page := 1 } }
  | .source s =>
    render hostFromUrl { sys with app := { sys.app with crit := { sys.app.crit with source := s }, page := 1 } }
  | .topic s =>
    render hostFromUrl { sys with app := { sys.app with crit := { sys.app.crit with topic := s }, page := 1 } }
  | .hideRead b =>
    render hostFromUrl { sys with app := { sys.app with crit := { sys.app.crit with hideRead := b }, page := 1 } }
  | .starOnly b =>
    render hostFromUrl { sys with app := { sys.app with crit := { sys.app.crit with starOnly := b }, page := 1 } }
  | .escape =>
    render hostFromUrl { sys with app := { sys.app with crit := { sys.app.crit with q := "" }, page := 1 } }
  | .navPrev =>
    render hostFromUrl { sys with app := { sys.app with page := max 1 (sys.app.page - 1) } }
  | .navNext =>
    render hostFromUrl { sys with app := { sys.app with page := min (sys.navT : Int) (sys.app.page + 1) } }
  | .navNum k =>
    if 1 ≤ k ∧ k ≤ min sys.navT MAX_VISIBLE_PAGES then
      render hostFromUrl { sys with app := { sys.app with page := (k : Int) } }
    else sys
  | .toggleRead id =>
    if id ∈ sys.visible ∧ id ≠ "" then
      let s := toggleRead id sys.store
      render hostFromUrl { sys with store := s, persisted := some (saveStore s) }
    else sys
  | .toggleStar id =>
    if id ∈ sys.visible ∧ id ≠ "" then
      let s := toggleStar id sys.store
      render hostFromUrl { sys with store := s, persisted := some (saveStore s) }
    else sys
  | .headline id =>
    if id ∈ sys.visible ∧ id ≠ "" then
      let s := setRead id sys.store
      { sys with store := s, persisted := some (saveStore s) }
    else sys
  | .fetchOk d =>
    render hostFromUrl { sys with app := { sys.app with data := some d, page := 1 } }
  | .fetchFail =>
    { sys with app := { sys.app with data := none }, visible := [] }

/-- Run a list of events from a state. -/
def runEvents (hostFromUrl : String → String) (sys : Sys) (evs : List Ev) : Sys :=
  evs.foldl (step hostFromUrl) sys

/-- Resolved HTTP response as consumed by `fetchCandidates`: status-ok flag,
numeric status, and the body (`none` when `JSON.parse(text)` throws). -/
structure HttpResp where
  ok : Bool
  status : Nat
  body : Option JsonVal

/-- Decoded item, as the render/filter pipeline reads a payload entry
(defensive field access; `String(it.id ?? "")`, `it.title || ""`,
`it.feed?.title || ""`, `it.url || ""`, `Array.isArray(it.tags)`).
Tag entries are taken in their string coercion. -/
def decodeItem (v : JsonVal) : Item :=
  { id := match getField v "id" with
      | none => ""
      | some .null => ""
      | some x => jsToString x
    title := match getField v "title" with
      | some x => if jsTruthy x then jsToString x else ""
      | none => ""
    feedTitle := match (getField v "feed").bind (fun f => getField f "title") with
      | some x => if jsTruthy x then jsToString x else ""
      | none => ""
    url := match getField v "url" with
      | some x => if jsTruthy x then jsToString x else ""
      | none => ""
    tags := match getField v "tags" with
      | some (.arr xs) => some (xs.map jsToString)
      | _ => none }

/-- Dataset stored by a successful fetch. -/
def dataOfJson (v : JsonVal) : DataVal :=
  ⟨match getField v "items" with
    | some (.arr xs) => some (xs.map decodeItem)
    | _ => none⟩

/-- `fetchCandidates` from app.js lines 290-305: a non-JSON body throws
`"API did not return JSON."`; a non-ok status throws the server-supplied
`data.error` when that field is truthy, else `"HTTP <status>"`; otherwise the
parsed payload is returned. -/
def fetchCandidates (r : HttpResp) : Except String JsonVal :=
  match r.body with
  | none => .error "API did not return JSON."
  | some data =>
    if r.ok then .ok data
    else
      match getField data "error" with
      | some e => if jsTruthy e then .error (jsToString e) else .error ("HTTP " ++ toString r.status)
      | none => .error ("HTTP " ++ toString r.status)

/-- `fetchAndRender` from app.js lines 307-327: on success the dataset is
replaced, the page reset to 1 and the view re-rendered (second component
`none`); on failure `state.data = null`, the cards are gone and the message
`"Failed to load: <err>"` is displayed (second component `some` message). -/
def fetchAndRender (hostFromUrl : String → String) (sys : Sys) (r : HttpResp) :
    Sys × Option String :=
  match fetchCandidates r with
  | .ok d =>
    (render hostFromUrl
      { sys with app := { sys.app with data := some (dataOfJson d), page := 1 } }, none)
  | .error m =>
    ({ sys with app := { sys.app with data := none }, visible := [] },
     some ("Failed to load: " ++ m))

/-- Hostname function used for concrete runs; all concrete items below carry
the empty url, on which the browser's `new URL` throws and `hostFromUrl`
returns `""`. -/
def hf0 : String → String := fun _ => ""

/-- Concrete store with no flags set. -/
def stEmpty : Store := ⟨[], []⟩

/-- Item with title "ab" and source label "cd", no url, no tags. -/
def itC1 : Item := ⟨"1", "ab", "cd", "", none⟩

/-- Criteria with only the query "bc" active. -/
def cC1 : Criteria := ⟨"bc", "", "", false, false⟩

/-- Criteria with every filter inactive. -/
def crit0 : Criteria := ⟨"", "", "", false, false⟩

/-- View state before the first fetch. -/
def app0 : AppState := ⟨crit0, none, 1⟩

/-- System state at boot when the persisted slot was empty. -/
def sys0 : Sys := ⟨app0, stEmpty, none, 0, []⟩

/-- Items "i0" … "i50": 51 distinct ids, blank fields otherwise. -/
def items51 : List Item := (List.range 51).map (fun n => ⟨"i" ++ Nat.repr n, "", "", "", none⟩)

/-- Dataset of the 51 distinct items. -/
def d51 : DataVal := ⟨some items51⟩

/-- Star mapping with all 51 ids starred. -/
def stars51 : List (String × Bool) := (List.range 51).map (fun n => ("i" ++ Nat.repr n, true))

/-- System state at boot when the persisted record already starred all 51 ids. -/
def sysStar0 : Sys := ⟨app0, ⟨[], stars51⟩, none, 0, []⟩

/-- Reachable state: fetch 51 unread items, enable hide-read, go to page 2
(the single card "i50" is displayed). -/
def sysB : Sys := runEvents hf0 sys0 [.fetchOk d51, .hideRead true, .navNext]

/-- Reachable state: boot with 51 starred ids, fetch the 51 items, enable
star-only, go to page 2 (the single card "i50" is displayed). -/
def sysA : Sys := runEvents hf0 sysStar0 [.fetchOk d51, .starOnly true, .navNext]

/-- Item whose id repeats across a dataset. -/
def itemX : Item := ⟨"x", "", "", "", none⟩

/-- Dataset of 51 items all carrying the id "x". -/
def d51x : DataVal := ⟨some (List.replicate 51 itemX)⟩

/-- Reachable state: fetch the duplicate-id dataset, enable hide-read, go to
page 2, click the displayed headline (marks id "x" read without re-rendering),
then star the card (the re-render finds no matching items and leaves
`state.page` at 2 while displaying page count 1). -/
def sysC : Sys :=
  runEvents hf0 sys0 [.fetchOk d51x, .hideRead true, .navNext, .headline "x", .toggleStar "x"]

/-- Small rendered state for witnesses: one displayed card with id "a". -/
def sysW : Sys := runEvents hf0 sys0 [.fetchOk ⟨some [⟨"a", "t", "f", "", none⟩]⟩]

/-- Error response carrying a server-supplied message. -/
def respErr : HttpResp := ⟨false, 429, some (.obj [("error", .str "rate limited")])⟩

/-- Error response whose body is not JSON. -/
def respBad : HttpResp := ⟨false, 500, none⟩

/-- Persisted value whose `read` field is an object of non-boolean values. -/
def badPersisted : JsonVal := .obj [("read", .obj [("a", .str "yes")]), ("star", .obj [])]

/-- Updating a present key in place yields that value on lookup. -/
theorem lookup_map_update_self (l : List (String × Bool)) (k : String) (v : Bool)
    (h : l.any (fun p => p.1 == k) = true) :
    List.lookup k (l.map (fun p => cond (p.1 == k) (k, v) p)) = some v := by
  induction l with
  | nil => simp at h
  | cons a t ih =>
    rcases a with ⟨ak, av⟩
    by_cases hk : ak = k
    · subst hk
      simp [List.lookup]
    · have hb : (ak == k) = false := beq_eq_false_iff_ne.mpr hk
      have hb' : (k == ak) = false := beq_eq_false_iff_ne.mpr (Ne.symm hk)
      have h' : t.any (fun p => p.1 == k) = true := by
        simpa [hb] using h
      simpa [List.lookup, hb, hb'] using ih h'

/-- Updating one key leaves every other key's lookup unchanged. -/
theorem lookup_map_update_ne (l : List (String × Bool)) (k : String) (v : Bool)
    (k' : String) (h : k' ≠ k) :
    List.lookup k' (l.map (fun p => cond (p.1 == k) (k, v) p)) = List.lookup k' l := by
  induction l with
  | nil => rfl
  | cons a t ih =>
    rcases a with ⟨ak, av⟩
    by_cases hk : ak = k
    · subst hk
      have hb : (k' == ak) = false := beq_eq_false_iff_ne.mpr h
      simp [List.lookup, hb, ih]
    · have hb : (ak == k) = false := beq_eq_false_iff_ne.mpr hk
      by_cases hk' : k' = ak
      · subst hk'
        simp [List.lookup, hb]
      · have hb' : (k' == ak) = false := beq_eq_false_iff_ne.mpr hk'
        simp [List.lookup, hb, hb', ih]

/-- A key that the `any` scan misses is absent. -/
theorem lookup_none_of_any_false (l : List (String × Bool)) (k : String)
    (h : l.any (fun p => p.1 == k) = false) : List.lookup k l = none := by
  induction l with
  | nil => rfl
  | cons a t ih =>
    rcases a with ⟨ak, av⟩
    rcases hak : (ak == k) with _ | _
    · have h' : t.any (fun p => p.1 == k) = false := by
        simpa [hak] using h
      have hne : ak ≠ k := by simpa using hak
      have hb : (k == ak) = false := beq_eq_false_iff_ne.mpr (Ne.symm hne)
      simp [List.lookup, hb, ih h']
    · simp [hak] at h

/-- Appending a binding for an absent key yields it on lookup. -/
theorem lookup_append_of_none (l : List (String × Bool)) (k : String) (v : Bool)
    (h : List.lookup k l = none) : List.lookup k (l ++ [(k, v)]) = some v := by
  induction l with
  | nil => simp [List.lookup]
  | cons a t ih =>
    rcases a with ⟨ak, av⟩
    by_cases hk : k = ak
    · subst hk
      simp [List.lookup] at h
    · have hb : (k == ak) = false := beq_eq_false_iff_ne.mpr hk
      have h' : List.lookup k t = none := by simpa [List.lookup, hb] using h
      simp [List.lookup, hb, ih h']

/-- Appending a binding for another key does not affect a lookup. -/
theorem lookup_append_ne (l : List (String × Bool)) (k : String) (v : Bool)
    (k' : String) (h : k' ≠ k) : List.lookup k' (l ++ [(k, v)]) = List.lookup k' l := by
  induction l with
  | nil =>
    have hb : (k' == k) = false := beq_eq_false_iff_ne.mpr h
    simp [List.lookup, hb]
  | cons a t ih =>
    rcases a with ⟨ak, av⟩
    by_cases hk : k' = ak
    · subst hk
      simp [List.lookup, ih]
    · have hb : (k' == ak) = false := beq_eq_false_iff_ne.mpr hk
      simp [List.lookup, hb, ih]

/-- JS property assignment: looking up the assigned key yields the new value. -/
theorem lookup_jsSet_self (l : List (String × Bool)) (k : String) (v : Bool) :
    List.lookup k (jsSet l k v) = some v := by
  unfold jsSet
  rcases h : l.any (fun p => p.1 == k) with _ | _
  · simp only [Bool.false_eq_true, if_false]
    exact lookup_append_of_none l k v (lookup_none_of_any_false l k h)
  · simp only [if_true]
    exact lookup_map_update_self l k v h

/-- JS property assignment: lookups of other keys are unchanged. -/
theorem lookup_jsSet_ne (l : List (String × Bool)) (k : String) (v : Bool)
    (k' : String) (h : k' ≠ k) : List.lookup k' (jsSet l k v) = List.lookup k' l := by
  unfold jsSet
  rcases hany : l.any (fun p => p.1 == k) with _ | _
  · simp only [Bool.false_eq_true, if_false]
    exact lookup_append_ne l k v k' h
  · simp only [if_true]
    exact lookup_map_update_ne l k v k' h

/-- Lookup commutes with mapping the values of an association list. -/
theorem lookup_map_val (l : List (String × Bool)) (k : String) (f : Bool → JsonVal) :
    List.lookup k (l.map (fun p => (p.1, f p.2))) = (List.lookup k l).map f := by
  induction l with
  | nil => rfl
  | cons a t ih =>
    rcases a with ⟨ak, av⟩
    by_cases hk : k = ak
    · subst hk
      simp [List.lookup]
    · have hb : (k == ak) = false := beq_eq_false_iff_ne.mpr hk
      simp [List.lookup, hb, ih]

/-- Flag value after a JS property assignment on the same key. -/
theorem flagOf_jsSet_self (l : List (String × Bool)) (k : String) (v : Bool) :
    flagOf (jsSet l k v) k = v := by
  rw [flagOf, lookup_jsSet_self]
  rfl

/-- Flag value of another key after a JS property assignment. -/
theorem flagOf_jsSet_ne (l : List (String × Bool)) (k : String) (v : Bool)
    (k' : String) (h : k' ≠ k) : flagOf (jsSet l k v) k' = flagOf l k' := by
  rw [flagOf, lookup_jsSet_ne l k v k' h]
  rfl

/-- A page count of at least 1 makes the zero guard of `clampPage` dead. -/
theorem clampPage_eq_max_min (p T : Int) (h : 1 ≤ T) :
    clampPage p T = max 1 (min T p) := by
  unfold clampPage
  rw [if_neg (by omega)]

/-- Clamping lands in the valid range. -/
theorem clampPage_bounds (p T : Int) (h : 1 ≤ T) :
    1 ≤ clampPage p T ∧ clampPage p T ≤ T := by
  rw [clampPage_eq_max_min p T h]
  exact ⟨le_max_left 1 _, max_le h (min_le_left T p)⟩

/-- Clamping a page already in the valid range is the identity. -/
theorem clampPage_of_mem (p T : Int) (h1 : 1 ≤ p) (h2 : p ≤ T) :
    clampPage p T = p := by
  rw [clampPage_eq_max_min p T (le_trans h1 h2), min_eq_right h2]
  exact max_eq_right h1

/-- Clamping page 1 always gives page 1. -/
theorem clampPage_one (T : Int) (h : 1 ≤ T) : clampPage 1 T = 1 :=
  clampPage_of_mem 1 T le_rfl h

/-- The filter chain of `applyFilters` equals a flat five-way conjunction, for
any boolean atoms. -/
theorem passes_chain_eq (a1 a2 a3 a45 a6 a7 a8 a9 b5 b6 : Bool) :
    (if (!a1) && (!a2) then false
     else if (!a3) && (!a45) then false
     else if a6 && a7 then false
     else if a8 && (!a9) then false
     else if b5 then true
     else b6)
    = ((a1 || a2) && ((a3 || a45) && ((!(a6 && a7)) && (((!a8) || a9) && (b5 || b6))))) := by
  cases a1 <;> cases a2 <;> cases a3 <;> cases a45 <;> cases a6 <;> cases a7 <;>
    cases a8 <;> cases a9 <;> cases b5 <;> cases b6 <;> rfl

/-- Membership in the defaulted tag list coincides with the guarded membership
test of the source. -/
theorem tags_contains_eq (tags : Option (List String)) (t : String) :
    (tags.isSome && (tags.getD []).contains t) = (tags.getD []).contains t := by
  cases tags <;> simp

/-- The per-item filter predicate of the source coincides with the five-way
conjunction of the (amended) spec predicates. -/
theorem itemPasses_eq_specPasses (hostFromUrl : String → String) (c : Criteria)
    (s : Store) (it : Item) :
    itemPasses hostFromUrl c s it = specPasses hostFromUrl c s it := by
  unfold itemPasses specPasses
  rw [tags_contains_eq it.tags c.topic]
  exact passes_chain_eq (c.source == "") (it.feedTitle == c.source) (c.topic == "")
    ((it.tags.getD []).contains c.topic) c.hideRead (readFlag s it.id)
    c.starOnly (starFlag s it.id) (toLowerStr (trimStr c.q) == "")
    (substrB (toLowerStr (trimStr c.q)) (hayOf hostFromUrl it))

/-- The page-count formula of `getPaged` in peeled form. -/
theorem totalPages_formula (N P : Nat) (hP : 0 < P) :
    max 1 ((N + P - 1) / P) = (N - 1) / P + 1 := by
  rcases Nat.eq_zero_or_pos N with h | h
  · subst h
    rw [show (0 : Nat) + P - 1 = P - 1 from by omega,
      Nat.div_eq_of_lt (show P - 1 < P from by omega)]
    simp
  · have h1 : N + P - 1 = (N - 1) + P := by omega
    rw [h1, Nat.add_div_right _ hP]
    exact max_eq_right (Nat.le_add_left 1 _)

/-- The slice `getPaged` returns for an in-range requested page. -/
theorem getPaged_slice (P : Nat) (_hP : 0 < P) (l : List α) (p : Nat)
    (h1 : 1 ≤ p) (h2 : p ≤ (getPaged P (p : Int) l).totalPages) :
    (getPaged P (p : Int) l).pageItems = (l.drop ((p - 1) * P)).take P := by
  have hT : (1 : Int) ≤ ((getPaged P (p : Int) l).totalPages : Int) := by
    have : 1 ≤ max 1 ((l.length + P - 1) / P) := le_max_left 1 _
    unfold getPaged
    exact_mod_cast this
  have hcl : clampPage (p : Int) ((max 1 ((l.length + P - 1) / P) : Nat) : Int) = (p : Int) := by
    apply clampPage_of_mem
    · exact_mod_cast h1
    · exact_mod_cast h2
  unfold getPaged
  simp only [hcl]
  have : ((p : Int) - 1).toNat = p - 1 := by omega
  rw [this]

/-- Splitting a list into `(len-1)/P + 1` consecutive `P`-sized slices
reassembles it. -/
theorem chunks_flatten (P : Nat) (hP : 0 < P) (n : Nat) : ∀ (l : List α), l.length = n →
    ((List.range ((n - 1) / P + 1)).map (fun p => (l.drop (p * P)).take P)).flatten = l := by
  induction n using Nat.strong_induction_on with
  | _ n ih =>
    intro l hl
    by_cases hn : n ≤ P
    · have h0 : (n - 1) / P = 0 := Nat.div_eq_of_lt (by omega)
      rw [h0]
      simp [List.range_succ, List.take_of_length_le (by omega : l.length ≤ P)]
    · have hm : (n - 1) / P = ((n - P) - 1) / P + 1 := by
        have hsplit : n - 1 = ((n - P) - 1) + P := by omega
        rw [hsplit, Nat.add_div_right _ hP]
      rw [hm, List.range_succ_eq_map]
      simp only [List.map_cons, List.map_map, List.flatten_cons, Function.comp_def,
        Nat.zero_mul, List.drop_zero]
      have htail : ((List.range (((n - P) - 1) / P + 1)).map
          (fun p => (l.drop (Nat.succ p * P)).take P)).flatten = l.drop P := by
        have hmap : ((List.range (((n - P) - 1) / P + 1)).map
            (fun p => (l.drop (Nat.succ p * P)).take P))
            = ((List.range (((n - P) - 1) / P + 1)).map
              (fun p => ((l.drop P).drop (p * P)).take P)) := by
          apply List.map_congr_left
          intro a _
          rw [List.drop_drop, show P + a * P = Nat.succ a * P from by
            rw [Nat.succ_mul, Nat.add_comm]]
        rw [hmap]
        exact ih (n - P) (by omega) (l.drop P) (by rw [List.length_drop, hl])
      rw [htail, List.take_append_drop]

/-- Rendering only mutates `state.page`, `navT` and `visible`. -/
theorem render_frame (hostFromUrl : String → String) (sys : Sys) :
    (render hostFromUrl sys).store = sys.store ∧
    (render hostFromUrl sys).persisted = sys.persisted ∧
    (render hostFromUrl sys).app.crit = sys.app.crit ∧
    (render hostFromUrl sys).app.data = sys.app.data := by
  unfold render
  cases hd : sys.app.data with
  | none => exact ⟨rfl, rfl, rfl, hd⟩
  | some d =>
    by_cases h0 : (applyFilters hostFromUrl sys.app.crit sys.store (d.items.getD [])).length = 0 <;>
      simp [h0, hd]

/-- The page number `render` stores is `renderedPage`. -/
theorem render_page_eq (hostFromUrl : String → String) (sys : Sys) :
    (render hostFromUrl sys).app.page
      = renderedPage hostFromUrl sys.app.crit sys.app.data sys.store sys.app.page := by
  unfold render renderedPage
  cases sys.app.data with
  | none => rfl
  | some d =>
    by_cases h0 : (applyFilters hostFromUrl sys.app.crit sys.store (d.items.getD [])).length = 0 <;>
      simp [h0, getPaged]

/-- `renderedPage` at requested page 1 is 1. -/
theorem renderedPage_one (hostFromUrl : String → String) (c : Criteria)
    (data : Option DataVal) (s : Store) :
    renderedPage hostFromUrl c data s 1 = 1 := by
  unfold renderedPage
  cases data with
  | none => rfl
  | some d =>
    by_cases h0 : (applyFilters hostFromUrl c s (d.items.getD [])).length = 0
    · simp [h0]
    · simp only [h0, if_false]
      exact clampPage_one _ (by exact_mod_cast le_max_left 1 _)

/-- C4 counterexample: a persisted object whose `read` field is an object with
non-boolean values is not reduced to the empty record; `loadStore` keeps the
field verbatim. -/
theorem loadStore_nonbool_cex :
    loadStore (.parsed badPersisted) ≠ emptyStoreVal ∧
    (loadStore (.parsed badPersisted)).read = .obj [("a", .str "yes")] := by
  constructor
  · intro h
    have hr := congrArg StoreVal.read h
    simp only [loadStore, badPersisted, emptyStoreVal, getField, fieldOrEmpty] at hr
    simp at hr
  · rfl

/-- Unfolding of `loadStore` on a parsed non-null value. -/
theorem loadStore_parsed (v : JsonVal) (hv : v ≠ .null) :
    loadStore (.parsed v)
      = ⟨fieldOrEmpty (getField v "read"), fieldOrEmpty (getField v "star")⟩ := by
  cases v with
  | null => exact absurd rfl hv
  | bool b => rfl
  | num n => rfl
  | str s => rfl
  | arr xs => rfl
  | obj fs => rfl

/-- A field access failing the object check is replaced with `{}`. -/
theorem fieldOrEmpty_of_not_obj (x : JsonVal) (h : isObjTruthy (some x) = false) :
    fieldOrEmpty (some x) = .obj [] := by
  cases x <;> first | rfl | simp [isObjTruthy] at h

/-- A field access passing the object check is kept verbatim. -/
theorem fieldOrEmpty_of_obj (x : JsonVal) (h : isObjTruthy (some x) = true) :
    fieldOrEmpty (some x) = x := by
  cases x <;> first | rfl | simp [isObjTruthy] at h

/-- C4 amended: `loadStore` never throws and returns the empty record on a
missing slot, a non-JSON slot, a parsed `null`, or any parsed value that is not
an object with object-typed `read`/`star` fields (arrays and primitives
included); each of `read`/`star` is independently replaced by `{}` when absent
or failing the `typeof`-object check, but an object- or array-typed field is
kept verbatim, without validating that its values are booleans. -/
theorem loadStore_recovery :
    loadStore .missing = emptyStoreVal ∧
    loadStore .notJson = emptyStoreVal ∧
    loadStore (.parsed .null) = emptyStoreVal ∧
    (∀ xs, loadStore (.parsed (.arr xs)) = emptyStoreVal) ∧
    (∀ b, loadStore (.parsed (.bool b)) = emptyStoreVal) ∧
    (∀ n, loadStore (.parsed (.num n)) = emptyStoreVal) ∧
    (∀ s, loadStore (.parsed (.str s)) = emptyStoreVal) ∧
    (∀ v, getField v "read" = none → (loadStore (.parsed v)).read = .obj []) ∧
    (∀ v x, getField v "read" = some x → isObjTruthy (some x) = false →
      (loadStore (.parsed v)).read = .obj []) ∧
    (∀ v x, v ≠ .null → getField v "read" = some x → isObjTruthy (some x) = true →
      (loadStore (.parsed v)).read = x) ∧
    (∀ v, getField v "star" = none → (loadStore (.parsed v)).star = .obj []) ∧
    (∀ v x, getField v "star" = some x → isObjTruthy (some x) = false →
      (loadStore (.parsed v)).star = .obj []) ∧
    (∀ v x, v ≠ .null → getField v "star" = some x → isObjTruthy (some x) = true →
      (loadStore (.parsed v)).star = x) := by
  refine ⟨rfl, rfl, rfl, fun xs => rfl, fun b => rfl, fun n => rfl, fun s => rfl,
    ?_, ?_, ?_, ?_, ?_, ?_⟩
  · intro v hv
    by_cases hn : v = JsonVal.null
    · subst hn; rfl
    · rw [loadStore_parsed v hn, hv]; rfl
  · intro v x hv hx
    have hn : v ≠ JsonVal.null := by
      intro h; subst h; simp [getField] at hv
    rw [loadStore_parsed v hn, hv]
    exact fieldOrEmpty_of_not_obj x hx
  · intro v x hn hv hx
    rw [loadStore_parsed v hn, hv]
    exact fieldOrEmpty_of_obj x hx
  · intro v hv
    by_cases hn : v = JsonVal.null
    · subst hn; rfl
    · rw [loadStore_parsed v hn, hv]; rfl
  · intro v x hv hx
    have hn : v ≠ JsonVal.null := by
      intro h; subst h; simp [getField] at hv
    rw [loadStore_parsed v hn, hv]
    exact fieldOrEmpty_of_not_obj x hx
  · intro v x hn hv hx
    rw [loadStore_parsed v hn, hv]
    exact fieldOrEmpty_of_obj x hx

/-- Witness for `loadStore_recovery`: an array-typed `read` field is kept
verbatim, and corrupt inputs produce the empty record. -/
theorem loadStore_recovery_witness :
    (loadStore (.parsed (.obj [("read", .arr [])]))).read = .arr [] :=
  loadStore_recovery.2.2.2.2.2.2.2.2.2.1 (.obj [("read", .arr [])]) (.arr [])
    (fun h => JsonVal.noConfusion h) rfl rfl

/-- The page count of `getPaged` is at least 1. -/
theorem totalPages_pos (P : Nat) (reqPage : Int) (items : List α) :
    1 ≤ (getPaged P reqPage items).totalPages :=
  le_max_left 1 _

/-- C2: for any item list, positive page size and any requested page (0,
negative or out of range included), `getPaged` returns
`totalPages = max(1, ceil(N / P))` (also characterised as a cover: `N ≤ T * P`
and, for a non-empty list, `(T - 1) * P < N`),
`currentPage = clamp(requestedPage, 1, totalPages)`, and
`pageItems = items[(currentPage-1)*P : currentPage*P]`; the slice is empty only
for an empty list, and an empty list gives `totalPages = 1`, `currentPage = 1`
and no items. -/
theorem getPaged_correct (P : Nat) (hP : 0 < P) (items : List α) (reqPage : Int) :
    (getPaged P reqPage items).totalPages = max 1 ((items.length + P - 1) / P) ∧
    items.length ≤ (getPaged P reqPage items).totalPages * P ∧
    (items ≠ [] → ((getPaged P reqPage items).totalPages - 1) * P < items.length) ∧
    (getPaged P reqPage items).currentPage
      = max 1 (min ((getPaged P reqPage items).totalPages : Int) reqPage) ∧
    1 ≤ (getPaged P reqPage items).currentPage ∧
    ((getPaged P reqPage items).currentPage : Int)
      ≤ ((getPaged P reqPage items).totalPages : Int) ∧
    (getPaged P reqPage items).pageItems
      = (items.drop (((getPaged P reqPage items).currentPage - 1).toNat * P)).take P ∧
    (items ≠ [] → (getPaged P reqPage items).pageItems ≠ []) ∧
    (items = [] → (getPaged P reqPage items).totalPages = 1 ∧
      (getPaged P reqPage items).currentPage = 1 ∧
      (getPaged P reqPage items).pageItems = []) := by
  have hT1 : (1 : Int) ≤ ((getPaged P reqPage items).totalPages : Int) := by
    exact_mod_cast totalPages_pos P reqPage items
  have hbounds := clampPage_bounds reqPage ((getPaged P reqPage items).totalPages : Int) hT1
  have hcur : (getPaged P reqPage items).currentPage
      = clampPage reqPage ((getPaged P reqPage items).totalPages : Int) := rfl
  have hTf : (getPaged P reqPage items).totalPages = (items.length - 1) / P + 1 := by
    show max 1 ((items.length + P - 1) / P) = _
    rw [totalPages_formula items.length P hP]
  refine ⟨rfl, ?_, ?_, ?_, ?_, ?_, rfl, ?_, ?_⟩
  · rw [hTf]
    have hd : items.length - 1 < ((items.length - 1) / P + 1) * P :=
      (Nat.div_lt_iff_lt_mul hP).mp (Nat.lt_succ_self _)
    omega
  · intro hne
    have hN : 0 < items.length := List.length_pos.mpr hne
    rw [hTf, Nat.add_sub_cancel]
    have hdiv : ((items.length - 1) / P) * P ≤ items.length - 1 := Nat.div_mul_le_self _ _
    omega
  · rw [hcur, clampPage_eq_max_min _ _ hT1]
  · rw [hcur]; exact hbounds.1
  · rw [hcur]; exact hbounds.2
  · intro hne
    have hN : 0 < items.length := List.length_pos.mpr hne
    have hc1 : 1 ≤ (getPaged P reqPage items).currentPage := by rw [hcur]; exact hbounds.1
    have hc2 : ((getPaged P reqPage items).currentPage : Int)
        ≤ ((getPaged P reqPage items).totalPages : Int) := by rw [hcur]; exact hbounds.2
    have hq : ((getPaged P reqPage items).currentPage - 1).toNat ≤ (items.length - 1) / P := by
      rw [hTf] at hc2
      omega
    have hm : ((getPaged P reqPage items).currentPage - 1).toNat * P
        ≤ ((items.length - 1) / P) * P := Nat.mul_le_mul_right P hq
    have hdiv : ((items.length - 1) / P) * P ≤ items.length - 1 := Nat.div_mul_le_self _ _
    apply List.ne_nil_of_length_pos
    rw [show (getPaged P reqPage items).pageItems
        = (items.drop (((getPaged P reqPage items).currentPage - 1).toNat * P)).take P from rfl]
    rw [List.length_take, List.length_drop]
    omega
  · intro he
    subst he
    have hTe : (getPaged P reqPage ([] : List α)).totalPages = 1 := by
      rw [hTf]
      simp
    refine ⟨hTe, ?_, ?_⟩
    · rw [hcur, hTe]
      rw [clampPage_eq_max_min _ _ (by norm_num)]
      rw [show ((1 : Nat) : Int) = 1 from rfl]
      rcases le_total reqPage 1 with h | h
      · rw [min_eq_right h]
        exact max_eq_left h
      · rw [min_eq_left h, max_self]
    · show (List.drop _ []).take P = []
      simp

/-- Witness for `getPaged_correct`: the spec scenario (120 items, page size 50,
requested page 5) yields a non-empty clamped page. -/
theorem getPaged_correct_witness : (getPaged 50 5 (List.range 120)).pageItems ≠ [] :=
  (getPaged_correct 50 (by decide) (List.range 120) 5).2.2.2.2.2.2.2.1 (by decide)

/-- C8: for any item list and positive page size, the pages numbered
`1 .. totalPages` reassemble the list in order (so their lengths sum to its
length), with `totalPages = max(1, ceil(N / P))`. -/
theorem pages_partition (P : Nat) (hP : 0 < P) (l : List α) :
    (getPaged P 1 l).totalPages = max 1 ((l.length + P - 1) / P) ∧
    ((List.range (getPaged P 1 l).totalPages).map
        (fun (p : Nat) => (getPaged P (((p : Int)) + 1) l).pageItems)).flatten = l ∧
    ((List.range (getPaged P 1 l).totalPages).map
        (fun (p : Nat) => ((getPaged P (((p : Int)) + 1) l).pageItems).length)).sum = l.length := by
  have hTf : (getPaged P 1 l).totalPages = (l.length - 1) / P + 1 := by
    show max 1 ((l.length + P - 1) / P) = _
    rw [totalPages_formula l.length P hP]
  have hmap : ∀ p ∈ List.range (getPaged P 1 l).totalPages,
      (getPaged P ((p : Int) + 1) l).pageItems = (l.drop (p * P)).take P := by
    intro p hp
    rw [List.mem_range] at hp
    have hcast : ((p : Int) + 1) = ((p + 1 : Nat) : Int) := by push_cast; ring
    rw [hcast]
    have hsameT : (getPaged P ((p + 1 : Nat) : Int) l).totalPages
        = (getPaged P 1 l).totalPages := rfl
    have hs := getPaged_slice P hP l (p + 1) (by omega) (by omega)
    rw [hs, Nat.add_sub_cancel]
  have hflat : ((List.range (getPaged P 1 l).totalPages).map
      (fun (p : Nat) => (getPaged P (((p : Int)) + 1) l).pageItems)).flatten = l := by
    rw [List.map_congr_left hmap, hTf]
    exact chunks_flatten P hP l.length l rfl
  refine ⟨rfl, hflat, ?_⟩
  have hlen := congrArg List.length hflat
  rw [List.length_flatten, List.map_map] at hlen
  simpa [Function.comp_def] using hlen

/-- Witness for `pages_partition`: 120 items at page size 50 split into three
pages whose lengths sum to 120. -/
theorem pages_partition_witness :
    ((List.range (getPaged 50 1 (List.range 120)).totalPages).map
        (fun (p : Nat) => ((getPaged 50 (((p : Int)) + 1) (List.range 120)).pageItems).length)).sum
      = 120 :=
  (pages_partition 50 (by decide) (List.range 120)).2.2.trans (by decide)

/-- C1 counterexample: with query "bc" the item titled "ab" from source "cd" is
excluded by `applyFilters` (its haystack is the space-joined "ab cd  "), yet it
satisfies all five predicates exactly as the claim states them, since "bc" is a
substring of the separator-free concatenation "abcd". -/
theorem applyFilters_concat_cex :
    applyFilters hf0 cC1 stEmpty [itC1] = [] ∧
    specPassesConcat hf0 cC1 stEmpty itC1 = true := by
  exact ⟨by decide, by decide⟩

/-- C1 amended: for every hostname function, criteria, store and item list,
`applyFilters` returns a subsequence of its input (order preserved), and an
item of the input is kept exactly when it satisfies the five predicates of
section 4.2 with predicate 5 reading the space-separated concatenation of
title, feedTitle, hostname and space-joined tags (all lowercased). -/
theorem applyFilters_characterization (hostFromUrl : String → String) (c : Criteria)
    (s : Store) (items : List Item) :
    List.Sublist (applyFilters hostFromUrl c s items) items ∧
    ∀ it : Item, it ∈ applyFilters hostFromUrl c s items
      ↔ (it ∈ items ∧ specPasses hostFromUrl c s it = true) := by
  refine ⟨List.filter_sublist items, fun it => ?_⟩
  rw [applyFilters, List.mem_filter, itemPasses_eq_specPasses]

/-- Toggling flips the read flag of the toggled id. -/
theorem readFlag_toggleRead (s : Store) (id : String) :
    readFlag (toggleRead id s) id = ! readFlag s id := by
  show flagOf (jsSet s.read id (! readFlag s id)) id = ! readFlag s id
  exact flagOf_jsSet_self s.read id (! readFlag s id)

/-- Toggling flips the star flag of the toggled id. -/
theorem starFlag_toggleStar (s : Store) (id : String) :
    starFlag (toggleStar id s) id = ! starFlag s id := by
  show flagOf (jsSet s.star id (! starFlag s id)) id = ! starFlag s id
  exact flagOf_jsSet_self s.star id (! starFlag s id)

/-- A headline click sets the read flag of the clicked id. -/
theorem readFlag_setRead (s : Store) (id : String) :
    readFlag (setRead id s) id = true := by
  show flagOf (jsSet s.read id true) id = true
  exact flagOf_jsSet_self s.read id true

/-- Reloading a record written by `saveStore` recovers every read flag. -/
theorem jsonFlag_reload_read (s : Store) (id : String) :
    jsonFlag (loadStore (.parsed (saveStore s))).read id = readFlag s id := by
  have h1 : (loadStore (.parsed (saveStore s))).read
      = .obj (s.read.map (fun p => (p.1, JsonVal.bool p.2))) := rfl
  rw [h1]
  show jsTruthy ((List.lookup id (s.read.map (fun p => (p.1, JsonVal.bool p.2)))).getD .null)
      = readFlag s id
  rw [lookup_map_val]
  cases h : List.lookup id s.read <;> simp [readFlag, flagOf, h, jsTruthy]

/-- Reloading a record written by `saveStore` recovers every star flag. -/
theorem jsonFlag_reload_star (s : Store) (id : String) :
    jsonFlag (loadStore (.parsed (saveStore s))).star id = starFlag s id := by
  have h1 : (loadStore (.parsed (saveStore s))).star
      = .obj (s.star.map (fun p => (p.1, JsonVal.bool p.2))) := rfl
  rw [h1]
  show jsTruthy ((List.lookup id (s.star.map (fun p => (p.1, JsonVal.bool p.2)))).getD .null)
      = starFlag s id
  rw [lookup_map_val]
  cases h : List.lookup id s.star <;> simp [starFlag, flagOf, h, jsTruthy]

/-- Unfolding of the read-toggle event on a displayed card. -/
theorem step_toggleRead_eq (hostFromUrl : String → String) (sys : Sys) (id : String)
    (hc : id ∈ sys.visible ∧ id ≠ "") :
    step hostFromUrl sys (.toggleRead id)
      = render hostFromUrl { sys with store := toggleRead id sys.store, persisted := some (saveStore (toggleRead id sys.store)) } := by
  simp only [step]
  rw [if_pos hc]

/-- Unfolding of the star-toggle event on a displayed card. -/
theorem step_toggleStar_eq (hostFromUrl : String → String) (sys : Sys) (id : String)
    (hc : id ∈ sys.visible ∧ id ≠ "") :
    step hostFromUrl sys (.toggleStar id)
      = render hostFromUrl { sys with store := toggleStar id sys.store, persisted := some (saveStore (toggleStar id sys.store)) } := by
  simp only [step]
  rw [if_pos hc]

/-- Unfolding of the headline-click event on a displayed card. -/
theorem step_headline_eq (hostFromUrl : String → String) (sys : Sys) (id : String)
    (hc : id ∈ sys.visible ∧ id ≠ "") :
    step hostFromUrl sys (.headline id)
      = { sys with store := setRead id sys.store, persisted := some (saveStore (setRead id sys.store)) } := by
  simp only [step]
  rw [if_pos hc]

/-- C6: toggling a flag twice restores its original value (absent counting as
false); a single toggle flips it, and reloading the record persisted by the
toggle reflects the flipped value; the card-button events persist the toggled
store synchronously. -/
theorem toggle_roundtrip_persist (s : Store) (id : String) :
    readFlag (toggleRead id (toggleRead id s)) id = readFlag s id ∧
    starFlag (toggleStar id (toggleStar id s)) id = starFlag s id ∧
    readFlag (toggleRead id s) id = ! readFlag s id ∧
    starFlag (toggleStar id s) id = ! starFlag s id ∧
    jsonFlag (loadStore (.parsed (saveStore (toggleRead id s)))).read id
      = ! readFlag s id ∧
    jsonFlag (loadStore (.parsed (saveStore (toggleStar id s)))).star id
      = ! starFlag s id ∧
    (∀ (hostFromUrl : String → String) (sys : Sys), id ∈ sys.visible → id ≠ "" →
      (step hostFromUrl sys (.toggleRead id)).persisted
          = some (saveStore (toggleRead id sys.store)) ∧
      (step hostFromUrl sys (.toggleStar id)).persisted
          = some (saveStore (toggleStar id sys.store))) := by
  refine ⟨?_, ?_, readFlag_toggleRead s id, starFlag_toggleStar s id, ?_, ?_, ?_⟩
  · rw [readFlag_toggleRead (toggleRead id s) id, readFlag_toggleRead s id, Bool.not_not]
  · rw [starFlag_toggleStar (toggleStar id s) id, starFlag_toggleStar s id, Bool.not_not]
  · rw [jsonFlag_reload_read (toggleRead id s) id, readFlag_toggleRead s id]
  · rw [jsonFlag_reload_star (toggleStar id s) id, starFlag_toggleStar s id]
  · intro hostFromUrl sys h1 h2
    constructor
    · rw [step_toggleRead_eq hostFromUrl sys id ⟨h1, h2⟩]
      exact (render_frame hostFromUrl _).2.1
    · rw [step_toggleStar_eq hostFromUrl sys id ⟨h1, h2⟩]
      exact (render_frame hostFromUrl _).2.1

/-- Witness for `toggle_roundtrip_persist`: toggling the displayed card "a"
persists the toggled store. -/
theorem toggle_roundtrip_persist_witness :
    (step hf0 sysW (.toggleRead "a")).persisted
      = some (saveStore (toggleRead "a" sysW.store)) :=
  ((toggle_roundtrip_persist sysW.store "a").2.2.2.2.2.2 hf0 sysW (by decide) (by decide)).1

/-- C9: clicking a displayed card's headline sets that item's read flag to true
(a second click leaves it true), persists the store synchronously, and changes
neither the view state (page, criteria, dataset) nor the star mapping nor what
is displayed. -/
theorem headline_click_read (hostFromUrl : String → String) (sys : Sys) (id : String)
    (h1 : id ∈ sys.visible) (h2 : id ≠ "") :
    readFlag (step hostFromUrl sys (.headline id)).store id = true ∧
    readFlag (step hostFromUrl (step hostFromUrl sys (.headline id)) (.headline id)).store id
      = true ∧
    (step hostFromUrl sys (.headline id)).app = sys.app ∧
    (step hostFromUrl (step hostFromUrl sys (.headline id)) (.headline id)).app = sys.app ∧
    (step hostFromUrl sys (.headline id)).store.star = sys.store.star ∧
    (step hostFromUrl sys (.headline id)).visible = sys.visible ∧
    (step hostFromUrl sys (.headline id)).navT = sys.navT ∧
    (step hostFromUrl sys (.headline id)).persisted
      = some (saveStore (step hostFromUrl sys (.headline id)).store) := by
  have hstep := step_headline_eq hostFromUrl sys id ⟨h1, h2⟩
  have hc2 : id ∈ (step hostFromUrl sys (.headline id)).visible ∧ id ≠ "" := by
    rw [hstep]; exact ⟨h1, h2⟩
  have hstep2 := step_headline_eq hostFromUrl (step hostFromUrl sys (.headline id)) id hc2
  refine ⟨?_, ?_, ?_, ?_, ?_, ?_, ?_, ?_⟩
  · rw [hstep]; exact readFlag_setRead sys.store id
  · rw [hstep2]; exact readFlag_setRead _ id
  · rw [hstep]
  · rw [hstep2, hstep]
  · rw [hstep]; rfl
  · rw [hstep]
  · rw [hstep]
  · rw [hstep]

/-- Witness for `headline_click_read`: clicking the displayed headline "a"
marks it read. -/
theorem headline_click_read_witness :
    readFlag (step hf0 sysW (.headline "a")).store "a" = true :=
  (headline_click_read hf0 sysW "a" (by decide) (by decide)).1

/-- C5: a non-ok response with a JSON body carrying a non-empty `error` string
fails with exactly that text and clears the dataset; a non-JSON body fails with
the distinct fixed message "API did not return JSON."; every fetch failure
clears the dataset (no stale data survives); and the non-JSON message can never
collide with a generic `HTTP <status>` message. -/
theorem fetch_error_reporting (hostFromUrl : String → String) (sys : Sys) (r : HttpResp) :
    (∀ data s, r.body = some data → r.ok = false → getField data "error" = some (.str s) →
      s ≠ "" →
      fetchCandidates r = .error s ∧
      (fetchAndRender hostFromUrl sys r).1.app.data = none ∧
      (fetchAndRender hostFromUrl sys r).2 = some ("Failed to load: " ++ s)) ∧
    (r.body = none →
      fetchCandidates r = .error "API did not return JSON." ∧
      (fetchAndRender hostFromUrl sys r).1.app.data = none) ∧
    (∀ m, fetchCandidates r = .error m → (fetchAndRender hostFromUrl sys r).1.app.data = none) ∧
    (∀ n : Nat, "API did not return JSON." ≠ "HTTP " ++ toString n) := by
  have hclear : ∀ m, fetchCandidates r = .error m →
      (fetchAndRender hostFromUrl sys r).1.app.data = none := by
    intro m hm
    unfold fetchAndRender
    rw [hm]
  refine ⟨?_, ?_, hclear, ?_⟩
  · intro data s hbody hok herr hne
    have htr : jsTruthy (.str s) = true := by simp [jsTruthy, hne]
    have hfc : fetchCandidates r = .error s := by
      unfold fetchCandidates
      rw [hbody, hok]
      simp [herr, htr]
      rfl
    refine ⟨hfc, hclear s hfc, ?_⟩
    unfold fetchAndRender
    rw [hfc]
  · intro hbody
    have hfc : fetchCandidates r = .error "API did not return JSON." := by
      unfold fetchCandidates
      rw [hbody]
    exact ⟨hfc, hclear _ hfc⟩
  · intro n h
    have h2 := congrArg String.data h
    rw [String.data_append] at h2
    have h3 := congrArg List.head? h2
    have hA : List.head? ("API did not return JSON.".data) = some 'A' := by decide
    have hH : List.head? ("HTTP ".data ++ (toString n).data) = some 'H' := by
      rw [show ("HTTP ".data) = 'H' :: 'T' :: 'T' :: 'P' :: ' ' :: [] from rfl]
      rfl
    rw [hA, hH] at h3
    exact absurd (Option.some.inj h3) (by decide)

/-- Witness for `fetch_error_reporting`: the rate-limit scenario produces the
server text and clears the dataset. -/
theorem fetch_error_reporting_witness :
    fetchCandidates respErr = .error "rate limited" ∧
    (fetchAndRender hf0 sys0 respErr).1.app.data = none :=
  have h := (fetch_error_reporting hf0 sys0 respErr).1 (.obj [("error", .str "rate limited")])
    "rate limited" rfl rfl rfl (by decide)
  ⟨h.1, h.2.1⟩

/-- C3 counterexample: a reachable post-render state (boot, fetch 51 items that
all carry the id "x", enable hide-read, go to page 2, click the displayed
headline, then toggle its star) in which the re-render found no matching items,
left `state.page` at 2, and displays a page count of 1. -/
theorem render_empty_page_cex :
    sysC.app.page = 2 ∧
    (currentFiltered hf0 sysC.app sysC.store).length = 0 ∧
    max 1 (((currentFiltered hf0 sysC.app sysC.store).length + PAGE_SIZE - 1) / PAGE_SIZE)
      = 1 := by
  exact ⟨by decide, by decide, by decide⟩

/-- C3 amended: after a render whose filtered result is non-empty the stored
page lies in `[1, totalPages]` computed from that filtered result; when there
is no dataset, or when no items match the filters, `render` returns early and
leaves the stored page (and the rest of the view state) untouched, so on those
paths the invariant holds only if the page was already 1. -/
theorem render_page_clamp (hostFromUrl : String → String) (sys : Sys) :
    (sys.app.data = none → (render hostFromUrl sys).app = sys.app) ∧
    (∀ d, sys.app.data = some d → (currentFiltered hostFromUrl sys.app sys.store).length = 0 →
      (render hostFromUrl sys).app = sys.app) ∧
    (∀ d, sys.app.data = some d → (currentFiltered hostFromUrl sys.app sys.store).length ≠ 0 →
      1 ≤ (render hostFromUrl sys).app.page ∧
      (render hostFromUrl sys).app.page
        ≤ ((max 1 (((currentFiltered hostFromUrl sys.app sys.store).length + PAGE_SIZE - 1)
            / PAGE_SIZE) : Nat) : Int)) := by
  refine ⟨?_, ?_, ?_⟩
  · intro hd
    unfold render
    rw [hd]
  · intro d hd h0
    have h0' : (applyFilters hostFromUrl sys.app.crit sys.store (d.items.getD [])).length = 0 := by
      simpa [currentFiltered, hd] using h0
    unfold render
    rw [hd]
    simp [h0']
  · intro d hd h0
    have h0' : (applyFilters hostFromUrl sys.app.crit sys.store (d.items.getD [])).length ≠ 0 := by
      simpa [currentFiltered, hd] using h0
    have hcf : (currentFiltered hostFromUrl sys.app sys.store).length
        = (applyFilters hostFromUrl sys.app.crit sys.store (d.items.getD [])).length := by
      simp [currentFiltered, hd]
    have hT1 : (1 : Int) ≤ ((max 1 (((applyFilters hostFromUrl sys.app.crit sys.store
        (d.items.getD [])).length + PAGE_SIZE - 1) / PAGE_SIZE) : Nat) : Int) := by
      exact_mod_cast le_max_left 1 _
    have hb := clampPage_bounds sys.app.page _ hT1
    constructor
    · unfold render
      rw [hd]
      simp only [h0', if_false, ne_eq, not_false_iff]
      simpa [getPaged] using hb.1
    · unfold render
      rw [hd]
      simp only [h0', if_false, ne_eq, not_false_iff]
      rw [hcf]
      simpa [getPaged] using hb.2

/-- Witness for `render_page_clamp`: rendering the one-card state keeps the
page at least 1. -/
theorem render_page_clamp_witness :
    1 ≤ (render hf0 sysW).app.page :=
  ((render_page_clamp hf0 sysW).2.2 ⟨some [⟨"a", "t", "f", "", none⟩]⟩
    (by decide) (by decide)).1

/-- C7 counterexample: in the reachable state `sysA` (51 starred items,
star-only active, page 2) toggling the star of the displayed card drops the
filtered result to 50 items and the re-render clamps the page to 1 — the
toggle did set the page to 1. -/
theorem toggle_star_page_cex :
    sysA.app.page = 2 ∧ (step hf0 sysA (.toggleStar "i50")).app.page = 1 := by
  exact ⟨by decide, by decide⟩

/-- C7 amended: every mutation of a filter criterion stores page 1; toggling
read/star and pagination navigation never assign the constant 1 — the toggle
handler leaves the requested page unchanged and navigation moves it by its
formula — but the re-render they trigger re-clamps the requested page against
the new filtered result (the identity whenever the page is still in range). -/
theorem page_reset_discipline (hostFromUrl : String → String) (sys : Sys) :
    (∀ v, (step hostFromUrl sys (.query v)).app.page = 1) ∧
    (∀ v, (step hostFromUrl sys (.source v)).app.page = 1) ∧
    (∀ v, (step hostFromUrl sys (.topic v)).app.page = 1) ∧
    (∀ b, (step hostFromUrl sys (.hideRead b)).app.page = 1) ∧
    (∀ b, (step hostFromUrl sys (.starOnly b)).app.page = 1) ∧
    (∀ id, id ∈ sys.visible → id ≠ "" →
      (step hostFromUrl sys (.toggleRead id)).app.page
        = renderedPage hostFromUrl sys.app.crit sys.app.data (toggleRead id sys.store)
            sys.app.page ∧
      (step hostFromUrl sys (.toggleStar id)).app.page
        = renderedPage hostFromUrl sys.app.crit sys.app.data (toggleStar id sys.store)
            sys.app.page) ∧
    ((step hostFromUrl sys .navPrev).app.page
        = renderedPage hostFromUrl sys.app.crit sys.app.data sys.store
            (max 1 (sys.app.page - 1))) ∧
    ((step hostFromUrl sys .navNext).app.page
        = renderedPage hostFromUrl sys.app.crit sys.app.data sys.store
            (min (sys.navT : Int) (sys.app.page + 1))) ∧
    (∀ k, 1 ≤ k → k ≤ min sys.navT MAX_VISIBLE_PAGES →
      (step hostFromUrl sys (.navNum k)).app.page
        = renderedPage hostFromUrl sys.app.crit sys.app.data sys.store (k : Int)) ∧
    (∀ p T : Int, 1 ≤ p → p ≤ T → clampPage p T = p) := by
  refine ⟨?_, ?_, ?_, ?_, ?_, ?_, ?_, ?_, ?_, fun p T => clampPage_of_mem p T⟩
  · intro v
    simp only [step]
    rw [render_page_eq]
    exact renderedPage_one hostFromUrl _ _ _
  · intro v
    simp only [step]
    rw [render_page_eq]
    exact renderedPage_one hostFromUrl _ _ _
  · intro v
    simp only [step]
    rw [render_page_eq]
    exact renderedPage_one hostFromUrl _ _ _
  · intro b
    simp only [step]
    rw [render_page_eq]
    exact renderedPage_one hostFromUrl _ _ _
  · intro b
    simp only [step]
    rw [render_page_eq]
    exact renderedPage_one hostFromUrl _ _ _
  · intro id h1 h2
    constructor
    · rw [step_toggleRead_eq hostFromUrl sys id ⟨h1, h2⟩, render_page_eq]
    · rw [step_toggleStar_eq hostFromUrl sys id ⟨h1, h2⟩, render_page_eq]
  · simp only [step]
    rw [render_page_eq]
  · simp only [step]
    rw [render_page_eq]
  · intro k hk1 hk2
    simp only [step]
    rw [if_pos ⟨hk1, hk2⟩, render_page_eq]

/-- Witness for `page_reset_discipline`: toggling the displayed card of the
one-item state re-renders to the clamped page. -/
theorem page_reset_discipline_witness :
    (step hf0 sysW (.toggleRead "a")).app.page
      = renderedPage hf0 sysW.app.crit sysW.app.data (toggleRead "a" sysW.store)
          sysW.app.page :=
  ((page_reset_discipline hf0 sysW).2.2.2.2.2.1 "a" (by decide) (by decide)).1

/-- C10 counterexample: in the reachable state `sysB` (51 unread items,
hide-read active, page 2) toggling the read flag of the displayed card changes
the page number from 2 to 1 (the star mapping is indeed unchanged). -/
theorem toggle_read_page_cex :
    sysB.app.page = 2 ∧
    (step hf0 sysB (.toggleRead "i50")).app.page = 1 ∧
    (step hf0 sysB (.toggleRead "i50")).store.star = sysB.store.star := by
  exact ⟨by decide, by decide, by decide⟩

/-- C10 amended: toggling a displayed card's read flag changes only that id's
entry of the read mapping and leaves the star mapping, the dataset and the
criteria unchanged, but the stored page becomes the re-rendered page (the old
page re-clamped against the new filtered result, and unchanged when the
filtered result is empty or there is no dataset); symmetrically for star. -/
theorem toggle_frame (hostFromUrl : String → String) (sys : Sys) (id : String)
    (h1 : id ∈ sys.visible) (h2 : id ≠ "") :
    readFlag (step hostFromUrl sys (.toggleRead id)).store id = ! readFlag sys.store id ∧
    (∀ k, k ≠ id → List.lookup k (step hostFromUrl sys (.toggleRead id)).store.read
        = List.lookup k sys.store.read) ∧
    (step hostFromUrl sys (.toggleRead id)).store.star = sys.store.star ∧
    (step hostFromUrl sys (.toggleRead id)).app.crit = sys.app.crit ∧
    (step hostFromUrl sys (.toggleRead id)).app.data = sys.app.data ∧
    (step hostFromUrl sys (.toggleRead id)).app.page
      = renderedPage hostFromUrl sys.app.crit sys.app.data (toggleRead id sys.store)
          sys.app.page ∧
    starFlag (step hostFromUrl sys (.toggleStar id)).store id = ! starFlag sys.store id ∧
    (∀ k, k ≠ id → List.lookup k (step hostFromUrl sys (.toggleStar id)).store.star
        = List.lookup k sys.store.star) ∧
    (step hostFromUrl sys (.toggleStar id)).store.read = sys.store.read ∧
    (step hostFromUrl sys (.toggleStar id)).app.crit = sys.app.crit ∧
    (step hostFromUrl sys (.toggleStar id)).app.data = sys.app.data ∧
    (step hostFromUrl sys (.toggleStar id)).app.page
      = renderedPage hostFromUrl sys.app.crit sys.app.data (toggleStar id sys.store)
          sys.app.page := by
  have hr := step_toggleRead_eq hostFromUrl sys id ⟨h1, h2⟩
  have hs := step_toggleStar_eq hostFromUrl sys id ⟨h1, h2⟩
  refine ⟨?_, ?_, ?_, ?_, ?_, ?_, ?_, ?_, ?_, ?_, ?_, ?_⟩
  · rw [hr, (render_frame hostFromUrl _).1]
    exact readFlag_toggleRead sys.store id
  · intro k hk
    rw [hr, (render_frame hostFromUrl _).1]
    exact lookup_jsSet_ne sys.store.read id (! readFlag sys.store id) k hk
  · rw [hr, (render_frame hostFromUrl _).1]
    rfl
  · rw [hr, (render_frame hostFromUrl _).2.2.1]
  · rw [hr, (render_frame hostFromUrl _).2.2.2]
  · rw [hr, render_page_eq]
  · rw [hs, (render_frame hostFromUrl _).1]
    exact starFlag_toggleStar sys.store id
  · intro k hk
    rw [hs, (render_frame hostFromUrl _).1]
    exact lookup_jsSet_ne sys.store.star id (! starFlag sys.store id) k hk
  · rw [hs, (render_frame hostFromUrl _).1]
    rfl
  · rw [hs, (render_frame hostFromUrl _).2.2.1]
  · rw [hs, (render_frame hostFromUrl _).2.2.2]
  · rw [hs, render_page_eq]

/-- Witness for `toggle_frame`: toggling the displayed card "a" leaves the star
mapping unchanged. -/
theorem toggle_frame_witness :
    (step hf0 sysW (.toggleRead "a")).store.star = sysW.store.star :=
  (toggle_frame hf0 sysW "a" (by decide) (by decide)).2.2.1

end FinanceRadar
